import Mathlib

/-!
Verification development for the natural-language-to-SQL chat pipeline of the
FastApi-Chat repository (`chatbot_olimpico_backend/app/chat.py`).

The pure classification layer (sensitive-pattern guard, structure-probe check,
`should_have_results` heuristic) is embedded with a small executable regex
matcher covering exactly the constructs those Python patterns use: literals,
alternation groups, `.*`, an optional suffix `x?`, and the word boundary `\b`
(with `re.search` anywhere-in-string semantics).

The effectful layer (LLM calls, relational-store execution) is embedded by
passing an explicit environment `Env` of oracle outcomes: each LLM call result
is an `Option String` (`none` models the call raising), and the store's raw
behavior per statement is a function `String → DbOut` (rows, or a raw error
message that `ejecutar_sql` classifies by substring matching exactly as the
source does).  The orchestrator `procesar_consulta_chat` returns its outcome
dictionary together with a trace of the generation attempts and store
executions it performed, so that the retry-count claims can be stated.
-/

/-- Python `str.lower()` restricted to ASCII case mapping (all questions and
patterns in the source are already lowercase outside ASCII letters). -/
def pyLower (s : String) : String :=
  String.mk (s.toList.map Char.toLower)

/-- Python's `needle in hay` substring test. -/
def containsSub (needle hay : String) : Bool :=
  (hay.toList.tails).any (fun t => needle.toList.isPrefixOf t)

/-- Drop leading whitespace. -/
def stripLeft : List Char → List Char
  | [] => []
  | c :: cs => if c.isWhitespace then stripLeft cs else c :: cs

/-- Python `str.strip()`: drop leading and trailing whitespace. -/
def pyStrip (s : String) : String :=
  String.mk ((stripLeft (stripLeft s.toList).reverse).reverse)

/-- Fuel-driven worker for `pySplit` (fuel bounds the number of characters
still to scan, so the recursion is structural). -/
def pySplitAux (sep : List Char) : Nat → List Char → List Char → List (List Char)
  | 0, rest, acc => [acc.reverse ++ rest]
  | _ + 1, [], acc => [acc.reverse]
  | n + 1, c :: cs, acc =>
    if sep.isPrefixOf (c :: cs) then
      acc.reverse :: pySplitAux sep n (List.drop sep.length (c :: cs)) []
    else pySplitAux sep n cs (c :: acc)

/-- Python `str.split(sep)` for a non-empty separator: split on every
left-to-right non-overlapping occurrence. -/
def pySplit (s sep : String) : List String :=
  (pySplitAux sep.toList (s.toList.length + 1) s.toList []).map String.mk

/-- Word characters for the `\b` boundary: Python `\w` over the alphabet that
actually occurs in the source's patterns and data (ASCII alphanumerics, the
underscore, and the accented Spanish letters appearing in the patterns). -/
def isWordChar (c : Char) : Bool :=
  c.isAlphanum || c == '_' ||
    c == 'á' || c == 'é' || c == 'í' || c == 'ó' || c == 'ú' || c == 'ñ' || c == 'ü'

/-- Regular-expression fragment covering the constructs used by the source's
patterns: string literals, concatenation, alternation, `.*`, an optional
piece (`x?`), and the word boundary `\b`.  (`.*` here also spans newlines;
the source applies its patterns to single-line questions.) -/
inductive Re where
  | lit : List Char → Re
  | seqc : Re → Re → Re
  | altc : Re → Re → Re
  | dotstar : Re
  | opt : Re → Re
  | wb : Re

/-- Consume a literal from the input, tracking the previously consumed
character (needed for `\b`). -/
def litStep : Option Char → List Char → List Char → Option (Option Char × List Char)
  | p, [], cs => some (p, cs)
  | _, _ :: _, [] => none
  | _, l :: ls, c :: cs => if l = c then litStep (some c) ls cs else none

/-- All suffix positions of the input, each with the character just before it. -/
def tailsFrom : Option Char → List Char → List (Option Char × List Char)
  | p, [] => [(p, [])]
  | p, c :: cs => (p, c :: cs) :: tailsFrom (some c) cs

/-- Is the given optional character a word character? -/
def isWordOpt : Option Char → Bool
  | none => false
  | some c => isWordChar c

/-- Python `\b`: the previous character and the next character disagree on
word-membership. -/
def atBoundary (p : Option Char) (cs : List Char) : Bool :=
  isWordOpt p != isWordOpt cs.head?

/-- All ways to match `r` at the start of `cs` (with `p` the character just
before `cs`); returns the suffix remaining after each match. -/
def mhere : Re → Option Char → List Char → List (Option Char × List Char)
  | Re.lit l, p, cs =>
      match litStep p l cs with
      | some res => [res]
      | none => []
  | Re.seqc a b, p, cs => (mhere a p cs).flatMap (fun pr => mhere b pr.1 pr.2)
  | Re.altc a b, p, cs => mhere a p cs ++ mhere b p cs
  | Re.dotstar, p, cs => tailsFrom p cs
  | Re.opt a, p, cs => (p, cs) :: mhere a p cs
  | Re.wb, p, cs => if atBoundary p cs then [(p, cs)] else []

/-- Python `re.search(r, s)` as a boolean: `r` matches somewhere in `s`. -/
def research (r : Re) (s : String) : Bool :=
  (tailsFrom none s.toList).any (fun pr => !(mhere r pr.1 pr.2).isEmpty)

/-- Literal regex from a string. -/
def reL (s : String) : Re := Re.lit s.toList

/-- Fold a nonempty list of regexes with alternation (a regex group `(a|b|c)`). -/
def reA : List Re → Re
  | [] => Re.lit []
  | [r] => r
  | r :: rs => Re.altc r (reA rs)

/-- Fold a list of regexes with concatenation. -/
def reS : List Re → Re
  | [] => Re.lit []
  | [r] => r
  | r :: rs => Re.seqc r (reS rs)

/-- Alternation group of plain string literals. -/
def reG (xs : List String) : Re := reA (xs.map reL)

/-- A word with an optional suffix, e.g. Python `usuarios?` is `reQ "usuario" "s"`. -/
def reQ (a b : String) : Re := Re.seqc (reL a) (Re.opt (reL b))

/-- Surround with word boundaries: Python `\b(...)\b`. -/
def reB (r : Re) : Re := reS [Re.wb, r, Re.wb]

/-- The `.*` regex. -/
def reDot : Re := Re.dotstar

/-! ### Guard Engine pattern lists, transcribed from `chat.py` -/

/-- `PATRONES_CONSULTAS_SENSIBLES` from `chat.py` (the 24 sensitive-query
patterns, in source order). -/
def PATRONES_CONSULTAS_SENSIBLES : List Re := [
  reS [reB (reG ["user","usuario","users","usuarios","registered"]), reDot,
       reG ["password","contraseña","pass","pwd","email","mail"]],
  reS [reB (reG ["password","contraseña","pass","pwd"]), reDot,
       reG ["user","usuario","users","usuarios"]],
  reS [reB (reG ["show","list","dame","mostrar"]), reDot,
       reG ["user","usuario","users","usuarios"], reDot, reG ["password","email"]],
  reS [reB (reA [reL "registered", reQ "registrado" "s"]), reDot,
       reB (reG ["user","usuario","users","usuarios"])],
  reS [reB (reG ["login","sesion","session","auth"]), reDot,
       reB (reG ["data","datos","info","información"])],
  reS [reB (reG ["show","mostrar","ver","listar","dame","display","list","what"]), reDot,
       reG ["table","tabla","tables","tablas","database","base"]],
  reS [reB (reA [reL "all", reQ "toda" "s"]), reDot,
       reG ["table","tabla","tables","tablas"]],
  reS [reB (reA [reL "what", reL "que", reQ "cuale" "s", reL "which"]), reDot,
       reB (reG ["table","tabla","tables","tablas"]), reDot,
       reB (reG ["database","base","db"])],
  reS [reB (reG ["describe","desc","structure","estructura"]), reDot,
       reB (reG ["table","tabla","database","base"])],
  reS [reB (reA [reL "what", reL "que", reQ "cuale" "s", reL "which"]), reDot,
       reG ["column","columna","columns","columnas","field","campo","fields","campos"], Re.wb],
  reS [reB (reG ["show","mostrar","ver","listar","dame","display","list"]), reDot,
       reG ["column","columna","columns","columnas","field","campo","fields","campos"]],
  reS [reB (reG ["column","columna","columns","columnas"]), reDot,
       reG ["database","base","table","tabla"]],
  reS [reB (reG ["structure","estructura","schema","esquema"]), reDot,
       reG ["column","columna","table","tabla"]],
  reB (reL "schema"),
  reB (reL "information_schema"),
  reB (reL "pg_tables"),
  reB (reL "pg_catalog"),
  reB (reG ["config","configuracion","configuration","settings","ajustes"]),
  reS [reB (reG ["admin","administrator","administrador"]), reDot,
       reB (reG ["data","datos","info","información"])],
  reS [reB (reG ["system","sistema"]), reDot,
       reB (reG ["info","información","data","datos"])],
  reB (reG ["drop","delete","update","insert","create","alter","truncate"]),
  reB (reG ["grant","revoke","permissions","permisos"]),
  reS [reB (reA [reQ "conversacione" "s", reQ "conversation" "s", reL "message",
                 reL "mensaje", reL "messages", reL "mensajes", reL "chat"]), reDot,
       reB (reA [reQ "other user" "s", reQ "otros usuario" "s", reQ "all user" "s",
                 reL "todos los usuarios", reL "private", reQ "privado" "s"])],
  reS [reB (reG ["show","mostrar","ver","listar"]), reDot,
       reB (reA [reL "chat", reQ "conversacione" "s", reQ "mensaje" "s"]), reDot,
       reB (reG ["user","usuario","private","privado"])]
]

/-- `patrones_deportivos_genero` — the positive allowlist inside
`es_consulta_deportiva_valida`. -/
def patrones_deportivos_genero : List Re := [
  reS [reB (reA [reQ "deporte" "s", reL "sport", reL "sports"]), reDot,
       reB (reG ["mujeres","hombres","women","men","femenino","masculino","female","male",
                 "género","genero","gender"])],
  reS [reB (reG ["mujeres","hombres","women","men","femenino","masculino","female","male"]),
       reDot,
       reB (reA [reQ "deporte" "s", reL "sport", reL "sports", reQ "medalla" "s",
                 reQ "medal" "s"])],
  reS [reB (reA [reL "más medallas", reL "more medals", reQ "mejore" "s", reL "better"]),
       reDot, reB (reG ["mujeres","hombres","women","men"])],
  reS [reB (reG ["mujeres","women"]), reDot, reB (reG ["más","more","mejor","better"]),
       reDot, reB (reG ["hombres","men"])],
  reS [reB (reG ["hombres","men"]), reDot, reB (reG ["más","more","mejor","better"]),
       reDot, reB (reG ["mujeres","women"])],
  reS [reB (reG ["comparar","compare","diferencia","difference"]), reDot,
       reB (reG ["género","genero","gender","sexo"])],
  reS [reB (reA [reL "participación", reL "participation"]), reDot,
       reB (reG ["género","genero","gender","mujeres","hombres","women","men"])]
]

/-- `es_consulta_deportiva_valida` from `chat.py`: the positive allowlist of
legitimate sports/gender questions. -/
def es_consulta_deportiva_valida (pregunta : String) : Bool :=
  let pregunta_lower := pyLower pregunta
  patrones_deportivos_genero.any (fun p => research p pregunta_lower)

/-- The canned rejection message for user/credential probes. -/
def MSG_RECHAZO_USUARIOS : String :=
  "Lo siento, no puedo proporcionar información sobre usuarios registrados, contraseñas o datos de autenticación por motivos de seguridad."

/-- The canned rejection message for schema/table/column probes. -/
def MSG_RECHAZO_TABLA : String :=
  "Solo puedo proporcionar información sobre los datos olímpicos disponibles en la tabla de medallistas. No tengo acceso a información sobre la estructura de la base de datos o sus columnas."

/-- The canned rejection message for system/configuration/admin probes. -/
def MSG_RECHAZO_CONFIG : String :=
  "No tengo acceso a información del sistema, configuración o datos administrativos. Solo puedo ayudarte con consultas sobre datos olímpicos."

/-- The canned rejection message for cross-user conversation probes. -/
def MSG_RECHAZO_CONVERSACIONES : String :=
  "No puedo acceder a conversaciones o mensajes de otros usuarios por motivos de privacidad. Solo puedo ayudarte con datos olímpicos públicos."

/-- The generic canned rejection message. -/
def MSG_RECHAZO_GENERICO : String :=
  "Lo siento, no puedo procesar esa consulta. Solo puedo ayudarte con información sobre medallistas olímpicos, países, deportes y estadísticas relacionadas con los Juegos Olímpicos de 1976-2008."

/-- Message-selection regex for user/password rejections (the first `elif`
chain regex inside `detectar_consulta_sensible`). -/
def patronMsgUsuarios : Re :=
  reS [reB (reG ["user","usuario","users","usuarios"]), reDot,
       reB (reG ["password","contraseña","pass","pwd","email","mail"])]

/-- Message-selection regex for structure rejections. -/
def patronMsgTabla : Re :=
  reB (reG ["table","tabla","tables","tablas","database","base","schema","column","columna",
            "columns","columnas","field","campo","fields","campos","structure","estructura"])

/-- Message-selection regex for system/config rejections. -/
def patronMsgConfig : Re :=
  reB (reG ["config","configuracion","admin","administrator","administrador","system","sistema"])

/-- Message-selection regex for conversation rejections. -/
def patronMsgConversaciones : Re :=
  reB (reA [reQ "conversacione" "s", reQ "conversation" "s", reL "message", reL "mensaje",
            reL "messages", reL "mensajes", reL "chat"])

/-- `detectar_consulta_sensible` from `chat.py`.  The source loops over the
sensitive patterns and, at the first match, picks the message by a second
regex chain that does not depend on which pattern matched; this is embedded
as `List.any` followed by the same message-selection chain. -/
def detectar_consulta_sensible (pregunta : String) : Bool × String :=
  let pregunta_lower := pyLower pregunta
  if es_consulta_deportiva_valida pregunta then (false, "")
  else if PATRONES_CONSULTAS_SENSIBLES.any (fun p => research p pregunta_lower) then
    if research patronMsgUsuarios pregunta_lower then (true, MSG_RECHAZO_USUARIOS)
    else if research patronMsgTabla pregunta_lower then (true, MSG_RECHAZO_TABLA)
    else if research patronMsgConfig pregunta_lower then (true, MSG_RECHAZO_CONFIG)
    else if research patronMsgConversaciones pregunta_lower then (true, MSG_RECHAZO_CONVERSACIONES)
    else (true, MSG_RECHAZO_GENERICO)
  else (false, "")

/-- The richer informative canned description of the one available dataset
(the `mensaje_publico` of `validar_respuesta_estructura_db`). -/
def MSG_ESTRUCTURA_DB : String :=
  "Tengo acceso únicamente a la tabla de medallistas olímpicos (medallas_olimpicas) que contiene información sobre:\n\n- Medallistas de los Juegos Olímpicos de Verano 1976-2008\n- Países participantes y sus códigos\n- Deportes, disciplinas y eventos\n- Tipos de medallas (oro, plata, bronce)\n- Ciudades anfitrionas de las olimpiadas\n- Género de atletas y eventos\n\n¿Te gustaría consultar algún dato específico sobre medallistas olímpicos?"

/-- `patrones_estructura` inside `validar_respuesta_estructura_db`. -/
def patrones_estructura : List Re := [
  reS [reB (reA [reL "what", reL "que", reQ "cuale" "s", reL "which"]), reDot,
       reB (reG ["table","tabla","tables","tablas"])],
  reS [reB (reG ["show","mostrar","ver","listar"]), reDot,
       reB (reG ["table","tabla","tables","tablas"])],
  reS [reB (reG ["database","base"]), reDot,
       reB (reG ["structure","estructura","schema","esquema"])]
]

/-- `validar_respuesta_estructura_db` from `chat.py`. -/
def validar_respuesta_estructura_db (pregunta : String) : Bool × String :=
  let pregunta_lower := pyLower pregunta
  if patrones_estructura.any (fun p => research p pregunta_lower) then
    (true, MSG_ESTRUCTURA_DB)
  else (false, "")

/-! ### `should_have_results` heuristic (`deberia_tener_resultados`) -/

/-- `excepciones_sin_resultados` inside `deberia_tener_resultados`: questions
that may legitimately return zero rows (repeated host cities in 1976-2008). -/
def excepciones_sin_resultados : List Re := [
  reS [reB (reA [reQ "ciudade" "s", reQ "citie" "s", reL "city"]), reDot,
       reB (reA [reQ "repetida" "s", reQ "múltiple" "s", reQ "multiple" "s",
                 reL "más de una", reL "more than once", reQ "repeate" "d"])],
  reS [reB (reG ["sede","host","hosting"]), reDot,
       reB (reA [reL "más de una", reL "multiple", reL "several", reQ "varia" "s"]), reDot,
       reB (reA [reQ "olimpiada" "s", reQ "olympic" "s"])],
  reS [reB (reA [reL "qué", reL "what", reQ "cuále" "s", reL "which"]), reDot,
       reB (reA [reQ "ciudade" "s", reQ "citie" "s"]), reDot,
       reB (reA [reL "han sido sede", reQ "hoste" "d"]), reDot,
       reB (reA [reL "más de", reL "multiple", reQ "varia" "s"])]
]

/-- `patrones_con_resultados` inside `deberia_tener_resultados`: questions that
normally should yield data. -/
def patrones_con_resultados : List Re := [
  reS [reB (reG ["swimming","natación","natacion","aquatics"]), reDot,
       reB (reG ["countries","países","paises","country"])],
  reS [reB (reG ["countries","países","paises"]), reDot,
       reB (reG ["gold","oro","medals","medallas"])],
  reS [reB (reG ["usa","united states","estados unidos"]), reDot,
       reB (reG ["medals","medallas"])],
  reS [reB (reG ["athletes","atletas"]), reDot, reB (reG ["medals","medallas"])],
  reB (reG ["athletics","atletismo","gymnastics","gimnasia","swimming","natación"]),
  reB (reG ["usa","united states","china","russia","germany","australia","brazil","brasil"]),
  reS [reB (reG ["gold","silver","bronze","oro","plata","bronce"]), reDot,
       reB (reG ["medals","medallas"])],
  reB (reG ["1976","1980","1984","1988","1992","1996","2000","2004","2008"]),
  reS [reB (reA [reQ "ciudade" "s", reQ "citie" "s"]), reDot,
       reB (reA [reQ "anfitriona" "s", reL "host", reL "hosting", reL "sede"])]
]

/-- `deberia_tener_resultados` from `chat.py`: the exception list is consulted
first; only if no exception matches are the positive patterns tried. -/
def deberia_tener_resultados (pregunta : String) : Bool :=
  let pregunta_lower := pyLower pregunta
  if excepciones_sin_resultados.any (fun p => research p pregunta_lower) then false
  else patrones_con_resultados.any (fun p => research p pregunta_lower)

/-! ### SQL Executor (`ejecutar_sql`) with error classification -/

/-- A result row as the executor returns it: column name to (already
portable) value.  The claims under verification never inspect individual
values, so values are kept as strings. -/
abbrev Row := List (String × String)

/-- Raw behavior of the relational store on one statement: rows, or the raw
error message of the raised exception. -/
inductive DbOut where
  | rows : List Row → DbOut
  | err : String → DbOut

/-- The two typed exceptions `ejecutar_sql` raises (`SQLSyntaxError` /
`SQLExecutionError` in `chat.py`). -/
inductive SqlExc where
  | sqlSyntaxError : String → SqlExc
  | sqlExecutionError : String → SqlExc
deriving DecidableEq

/-- Is the exception the syntax-classified one? -/
def esErrorSintaxis : SqlExc → Bool
  | SqlExc.sqlSyntaxError _ => true
  | SqlExc.sqlExecutionError _ => false

/-- The error-classification chain of `ejecutar_sql`: case-insensitive
substring matching on the raised error's message, in source order. -/
def clasificar_error_sql (e : String) : SqlExc :=
  let error_message := pyLower e
  if containsSub "invalidcolumnreference" error_message
     || containsSub "order by expressions must appear" error_message then
    SqlExc.sqlSyntaxError "Complex aggregation query requires restructuring"
  else if containsSub "syntax error" error_message then
    SqlExc.sqlSyntaxError "Invalid SQL syntax generated"
  else if containsSub "column" error_message && containsSub "does not exist" error_message then
    SqlExc.sqlSyntaxError "Column reference error in query"
  else if containsSub "relation" error_message && containsSub "does not exist" error_message then
    SqlExc.sqlSyntaxError "Table reference error in query"
  else
    SqlExc.sqlExecutionError ("Database query execution failed: " ++ e)

/-- Result of one `ejecutar_sql` call, together with whether a rollback was
issued (the source issues `db.rollback()` on every failing execution; a
rollback failure is only logged, so it cannot influence `result`). -/
structure ExecOut where
  result : Except SqlExc (List Row)
  rollbackIssued : Bool

/-- `ejecutar_sql` from `chat.py`.  `rollbackOk` models whether the
`db.rollback()` call itself succeeds; the source catches and logs a rollback
failure without altering the raised classification, which is why the field is
not consulted.  Row normalization (Decimal→float, datetime→ISO) is the
identity here because `DbOut` already carries portable rows. -/
def ejecutar_sql (dbExec : String → DbOut) (rollbackOk : Bool) (sql : String) : ExecOut :=
  match dbExec sql with
  | DbOut.rows rs => { result := Except.ok rs, rollbackIssued := false }
  | DbOut.err m =>
      let _ := rollbackOk
      { result := Except.error (clasificar_error_sql m), rollbackIssued := true }

/-! ### SQL Generator models -/

/-- External-world oracle for one pipeline invocation: the LLM client state,
the admin-managed prompt configuration, the user's active excluded terms, the
raw text each LLM call would return (`none` models the call raising), the
relational store's behavior per statement, and whether a rollback succeeds. -/
structure Env where
  clientOk : Bool
  promptConfig : Option String
  terminos : List String
  llmSql : Option String
  llmSimple : Option String
  llmAnswer : Option String
  dbExec : String → DbOut
  rollbackOk : Bool

/-- Code-fence stripping in `obtener_consulta_sql`: strip the raw response,
then extract the contents of a ```sql fence, else of the first generic
fence, else keep the trimmed text. -/
def limpiar_respuesta_sql (raw : String) : String :=
  let sql_query := pyStrip raw
  if containsSub "```sql" sql_query then
    pyStrip ((pySplit ((pySplit sql_query "```sql").getD 1 "") "```").headD "")
  else if containsSub "```" sql_query then
    pyStrip ((pySplit sql_query "```").getD 1 "")
  else sql_query

/-- `obtener_consulta_sql` from `chat.py`: raises (`none`) when the client was
never initialized or the LLM call raises; otherwise returns the fence-stripped
statement. -/
def obtener_consulta_sql (env : Env) : Option String :=
  if env.clientOk then
    match env.llmSql with
    | none => none
    | some raw => some (limpiar_respuesta_sql raw)
  else none

/-- The hardcoded safe default statement of `obtener_consulta_sql_simplificada`
(top-10 countries by gold-medal count). -/
def CONSULTA_POR_DEFECTO : String :=
  "SELECT DISTINCT country, COUNT(*) as total_medals FROM medallas_olimpicas WHERE medal = \x27Gold\x27 GROUP BY country ORDER BY total_medals DESC LIMIT 10;"

/-- `obtener_consulta_sql_simplificada` from `chat.py`: raises (`none`) only
when the client was never initialized; an LLM failure falls back to the
hardcoded default query instead of propagating.  Note the simplified path
performs no code-fence stripping, only `strip()`. -/
def obtener_consulta_sql_simplificada (env : Env) : Option String :=
  if env.clientOk then
    match env.llmSimple with
    | none => some CONSULTA_POR_DEFECTO
    | some raw => some (pyStrip raw)
  else none

/-- `generar_respuesta_final` from `chat.py`: a single LLM call whose failure
(or an uninitialized client) raises (`none`). -/
def generar_respuesta_final (env : Env) : Option String :=
  if env.clientOk then env.llmAnswer else none

/-- Hardcoded default system prompt of `obtener_prompt_contexto` (used when no
active `ConfiguracionPrompt` row exists for the context key); the Python
triple-quoted string rendered with explicit newlines. -/
def PROMPT_SISTEMA_POR_DEFECTO : String :=
  "Eres un asistente especializado en análisis de datos olímpicos de verano (1976-2008). \n    Tienes acceso a información completa sobre medallistas, ciudades anfitrionas, países, deportes y estadísticas olímpicas.\n    \n    CONTEXTO HISTÓRICO CRÍTICO:\n    - 1976-1988: Alemania estaba dividida en DOS países independientes:\n      * Alemania Occidental (\"West Germany\") \n      * Alemania Oriental (\"East Germany\")\n    - 1992-2008: Alemania reunificada compite como un solo país (\"Germany\")\n    - NUNCA confundas \"East Germany\" (1976-1988) con \"Germany\" (1992-2008)\n    \n    Proporciona respuestas precisas y profesionales. Puedes responder sobre:\n    - Ciudades que han organizado múltiples Juegos Olímpicos\n    - Medallistas y sus logros\n    - Estadísticas por países, deportes y años\n    - Análisis comparativos entre olimpiadas, especialmente casos históricos como las dos Alemanias\n    La base de datos contiene todas las medallas otorgadas en los Juegos Olímpicos de Verano desde Montreal 1976 hasta Beijing 2008."

/-- `obtener_prompt_contexto` from `chat.py`: the active configured prompt for
the context, else the hardcoded default. -/
def obtener_prompt_contexto (env : Env) : String :=
  match env.promptConfig with
  | some p => p
  | none => PROMPT_SISTEMA_POR_DEFECTO

/-! ### Query Orchestrator (`procesar_consulta_chat`) -/

/-- The `datos_contexto` payload of a successful pipeline outcome. -/
structure Contexto where
  total_resultados : Nat
  muestra_datos : List Row
  sql_ejecutado : String
  terminos_excluidos_aplicados : Nat
deriving DecidableEq

/-- The outcome dictionary returned by `procesar_consulta_chat`.  The Python
dict omits the `rechazada` / `fallback_used` keys on some paths; an absent key
is `none`. -/
structure Outcome where
  respuesta : String
  consulta_sql : Option String
  datos_contexto : Option Contexto
  error : Bool
  rechazada : Option Bool
  fallback_used : Option Bool
deriving DecidableEq

/-- An observable step of one pipeline invocation: a relational-store read for
prompt configuration or excluded terms, entry into one of the three LLM
generation functions, or one `ejecutar_sql` execution of the given statement. -/
inductive Ev where
  | dbRead : Ev
  | genSql : Ev
  | genSimple : Ev
  | genAnswer : Ev
  | execSql : String → Ev
deriving DecidableEq

/-- The statements executed against the relational store, in order. -/
def execList (t : List Ev) : List String :=
  t.filterMap (fun e => match e with | Ev.execSql s => some s | _ => none)

/-- How many times the simplified generation path was entered. -/
def nGenSimple (t : List Ev) : Nat :=
  (t.filter (fun e => e = Ev.genSimple)).length

/-- The friendly message returned when the syntax-error fallback is also
exhausted. -/
def MSG_FALLBACK_AGOTADO : String :=
  "Lo siento, tuve dificultades técnicas procesando tu consulta sobre los datos olímpicos. ¿Podrías reformularla de manera más simple? Por ejemplo, puedes preguntarme sobre medallas por país, deporte específico, o año."

/-- The fixed friendly message for a `SQLExecutionError` on the primary
statement. -/
def MSG_ERROR_ACCESO : String :=
  "Encontré un problema al acceder a los datos olímpicos. Por favor, intenta con una consulta diferente o más específica."

/-- The keyword-sensitive friendly message assembled by the orchestrator's
catch-all exception handler. -/
def mensaje_error_generico (pregunta : String) : String :=
  let pregunta_lower := pyLower pregunta
  let base := "Lo siento, tuve dificultades procesando tu consulta sobre los datos olímpicos. "
  if ["countries","países","paises","country"].any (fun w => containsSub w pregunta_lower) then
    base ++ "¿Podrías preguntarme de forma más específica sobre un país en particular o un deporte específico?"
  else if ["swimming","natación","natacion"].any (fun w => containsSub w pregunta_lower) then
    base ++ "¿Podrías preguntarme sobre nadadores específicos o medallas de natación de un país en particular?"
  else if ["female","male","men","women","género","genero"].any (fun w => containsSub w pregunta_lower) then
    base ++ "¿Podrías preguntarme de forma más específica sobre atletas masculinos o femeninos en un deporte particular?"
  else
    base ++ "¿Podrías reformular tu pregunta de manera más simple? Por ejemplo: \x27¿Qué países ganaron más medallas de oro?\x27 o \x27¿Cuántas medallas ganó Estados Unidos en natación?\x27"

/-- Outcome of the guard-rejection branch. -/
def outcomeRechazo (msg : String) : Outcome :=
  { respuesta := msg, consulta_sql := none, datos_contexto := none,
    error := false, rechazada := some true, fallback_used := none }

/-- Outcome of the structure-probe interception branch. -/
def outcomeEstructura (msg : String) : Outcome :=
  { respuesta := msg, consulta_sql := none, datos_contexto := none,
    error := false, rechazada := some false, fallback_used := none }

/-- Outcome when the syntax-error fallback is also exhausted. -/
def outcomeAgotado : Outcome :=
  { respuesta := MSG_FALLBACK_AGOTADO, consulta_sql := none, datos_contexto := none,
    error := false, rechazada := none, fallback_used := some true }

/-- Outcome of the `SQLExecutionError` branch. -/
def outcomeErrorAcceso : Outcome :=
  { respuesta := MSG_ERROR_ACCESO, consulta_sql := none, datos_contexto := none,
    error := false, rechazada := none, fallback_used := some true }

/-- Outcome of the catch-all exception handler. -/
def outcomeErrorGenerico (pregunta : String) : Outcome :=
  { respuesta := mensaje_error_generico pregunta, consulta_sql := none,
    datos_contexto := none, error := false, rechazada := none, fallback_used := some true }

/-- Step 6 of the orchestrator: the empty-result retry.  When the (possibly
fallback-resolved) result set is empty and `deberia_tener_resultados` holds,
one simplified retry is attempted; its rows/SQL are adopted only when it
returns at least one row; any exception inside it is swallowed. -/
def reintento_vacio (env : Env) (pregunta sql_query : String) (resultados_sql : List Row) :
    (String × List Row) × List Ev :=
  if resultados_sql.length = 0 && deberia_tener_resultados pregunta then
    match obtener_consulta_sql_simplificada env with
    | none => ((sql_query, resultados_sql), [Ev.genSimple])
    | some sql_fallback =>
      match (ejecutar_sql env.dbExec env.rollbackOk sql_fallback).result with
      | Except.error _ => ((sql_query, resultados_sql), [Ev.genSimple, Ev.execSql sql_fallback])
      | Except.ok resultados_fallback =>
        if resultados_fallback.length > 0 then
          ((sql_fallback, resultados_fallback), [Ev.genSimple, Ev.execSql sql_fallback])
        else
          ((sql_query, resultados_sql), [Ev.genSimple, Ev.execSql sql_fallback])
  else ((sql_query, resultados_sql), [])

/-- Steps 7-8 of the orchestrator: answer generation and assembly of the
successful outcome; an answer-generation failure routes to the catch-all. -/
def contestar (env : Env) (pregunta sql_query : String) (resultados_sql : List Row) :
    Outcome × List Ev :=
  match generar_respuesta_final env with
  | none => (outcomeErrorGenerico pregunta, [Ev.genAnswer])
  | some respuesta_final =>
    ({ respuesta := respuesta_final,
       consulta_sql := some sql_query,
       datos_contexto := some { total_resultados := resultados_sql.length,
                                muestra_datos := resultados_sql.take 5,
                                sql_ejecutado := sql_query,
                                terminos_excluidos_aplicados := env.terminos.length },
       error := false, rechazada := none, fallback_used := none }, [Ev.genAnswer])

/-- `procesar_consulta_chat` from `chat.py`, returning the outcome dictionary
together with the trace of generation attempts and store executions. -/
def procesar_consulta_chat (env : Env) (pregunta : String) : Outcome × List Ev :=
  match detectar_consulta_sensible pregunta with
  | (true, mensaje_rechazo) => (outcomeRechazo mensaje_rechazo, [])
  | (false, _) =>
  match validar_respuesta_estructura_db pregunta with
  | (true, respuesta_estructura) => (outcomeEstructura respuesta_estructura, [])
  | (false, _) =>
    let _prompt_contexto := obtener_prompt_contexto env
    let tr0 : List Ev := [Ev.dbRead, Ev.dbRead]
    match obtener_consulta_sql env with
    | none => (outcomeErrorGenerico pregunta, tr0 ++ [Ev.genSql])
    | some sql_query =>
      match (ejecutar_sql env.dbExec env.rollbackOk sql_query).result with
      | Except.error (SqlExc.sqlSyntaxError _) =>
        (match obtener_consulta_sql_simplificada env with
         | none =>
             (outcomeAgotado, tr0 ++ [Ev.genSql, Ev.execSql sql_query, Ev.genSimple])
         | some sql_fb =>
           match (ejecutar_sql env.dbExec env.rollbackOk sql_fb).result with
           | Except.error _ =>
               (outcomeAgotado,
                tr0 ++ [Ev.genSql, Ev.execSql sql_query, Ev.genSimple, Ev.execSql sql_fb])
           | Except.ok resultados =>
             let sr := reintento_vacio env pregunta sql_fb resultados
             let fin := contestar env pregunta sr.1.1 sr.1.2
             (fin.1, tr0 ++ [Ev.genSql, Ev.execSql sql_query, Ev.genSimple, Ev.execSql sql_fb]
                       ++ sr.2 ++ fin.2))
      | Except.error (SqlExc.sqlExecutionError _) =>
        (outcomeErrorAcceso, tr0 ++ [Ev.genSql, Ev.execSql sql_query])
      | Except.ok resultados =>
        let sr := reintento_vacio env pregunta sql_query resultados
        let fin := contestar env pregunta sr.1.1 sr.1.2
        (fin.1, tr0 ++ [Ev.genSql, Ev.execSql sql_query] ++ sr.2 ++ fin.2)

/-! ### Concrete environments used by witnesses and counterexamples -/

/-- A store that returns zero rows for every statement. -/
def dbVacio : String → DbOut := fun _ => DbOut.rows []

/-- Baseline healthy environment: client initialized, no excluded terms, LLM
calls succeed, every statement returns zero rows. -/
def envBase : Env :=
  { clientOk := true, promptConfig := none, terminos := [],
    llmSql := some "SQLA", llmSimple := some "SQLB", llmAnswer := some "ANS",
    dbExec := dbVacio, rollbackOk := true }

/-- Environment where the primary statement fails with a syntax-classified
error and the simplified statement succeeds with zero rows. -/
def envSintaxisVacio : Env :=
  { envBase with
    dbExec := fun s => if s = "SQLA" then DbOut.err "syntax error at or near" else DbOut.rows [] }

/-- Environment where the primary LLM generation call raises. -/
def envGenFalla : Env := { envBase with llmSql := none }

/-- A sample result row. -/
def filaEjemplo : Row := [("country", "United States")]

/-- Environment where the primary statement returns zero rows and the
simplified statement returns one row. -/
def envReintentoExitoso : Env :=
  { envBase with
    dbExec := fun s => if s = "SQLB" then DbOut.rows [filaEjemplo] else DbOut.rows [] }

/-- Environment where the primary statement returns zero rows and the
simplified retry statement fails. -/
def envReintentoFalla : Env :=
  { envBase with
    dbExec := fun s => if s = "SQLB" then DbOut.err "boom" else DbOut.rows [] }

/-- Environment where every statement fails with a non-syntax error. -/
def envErrorAcceso : Env :=
  { envBase with dbExec := fun _ => DbOut.err "disk failure" }

/-! ### Helper lemmas -/

theorem lem_execList_append (a b : List Ev) :
    execList (a ++ b) = execList a ++ execList b := by
  simp [execList, List.filterMap_append]

theorem lem_reintento_execs_le (env : Env) (p s : String) (r : List Row) :
    (execList (reintento_vacio env p s r).2).length ≤ 1 := by
  unfold reintento_vacio
  repeat' split
  all_goals simp [execList]

theorem lem_contestar_execs (env : Env) (p s : String) (r : List Row) :
    execList (contestar env p s r).2 = [] := by
  unfold contestar
  split
  all_goals simp [execList]

/-! ### Claim theorems -/

/-- Claim C1 (counterexample): the claim "at most two Relational Store executions
per invocation; no path has both a syntax-error fallback execution and an
empty-result retry execution" is false.  On the question "usa medals" with a
primary statement failing as a syntax error and a simplified statement
succeeding with zero rows, the invocation executes three statements: the
primary, the syntax-error fallback, and the empty-result retry. -/
theorem C1_counterexample_both_fallbacks_occur :
    execList (procesar_consulta_chat envSintaxisVacio "usa medals").2
      = ["SQLA", "SQLB", "SQLB"]
    ∧ (execList (procesar_consulta_chat envSintaxisVacio "usa medals").2).length = 3 := by
  constructor
  · decide
  · decide

/-- Claim C1 (amended): every invocation of `procesar_consulta_chat` performs at
most three Relational Store executions: the primary statement, at most one
syntax-error fallback execution, and at most one empty-result retry execution
(the last two can co-occur when the syntax fallback succeeds with zero rows on
a question judged to normally have results). -/
theorem C1_at_most_three_store_executions (env : Env) (pregunta : String) :
    (execList (procesar_consulta_chat env pregunta).2).length ≤ 3 := by
  rcases hdet : detectar_consulta_sensible pregunta with ⟨b1, m1⟩
  cases b1
  case mk.true => simp [procesar_consulta_chat, hdet, execList]
  case mk.false =>
  rcases hval : validar_respuesta_estructura_db pregunta with ⟨b2, m2⟩
  cases b2
  case mk.true => simp [procesar_consulta_chat, hdet, hval, execList]
  case mk.false =>
  rcases hgen : obtener_consulta_sql env with _ | sqlq
  · simp [procesar_consulta_chat, hdet, hval, hgen, execList]
  · rcases hex : (ejecutar_sql env.dbExec env.rollbackOk sqlq).result with exc | rows
    · rcases exc with msg | msg
      · rcases hsim : obtener_consulta_sql_simplificada env with _ | fsql
        · simp [procesar_consulta_chat, hdet, hval, hgen, hex, hsim, execList]
        · rcases hfex : (ejecutar_sql env.dbExec env.rollbackOk fsql).result with exc2 | rows2
          · simp [procesar_consulta_chat, hdet, hval, hgen, hex, hsim, hfex, execList]
          · have h1 := lem_reintento_execs_le env pregunta fsql rows2
            have h2 := lem_contestar_execs env pregunta
              (reintento_vacio env pregunta fsql rows2).1.1 (reintento_vacio env pregunta fsql rows2).1.2
            simp only [execList] at h1 h2
            simp [procesar_consulta_chat, hdet, hval, hgen, hex, hsim, hfex,
                  lem_execList_append, h2, execList]
            omega
      · simp [procesar_consulta_chat, hdet, hval, hgen, hex, execList]
    · have h1 := lem_reintento_execs_le env pregunta sqlq rows
      have h2 := lem_contestar_execs env pregunta
        (reintento_vacio env pregunta sqlq rows).1.1 (reintento_vacio env pregunta sqlq rows).1.2
      simp only [execList] at h1 h2
      simp [procesar_consulta_chat, hdet, hval, hgen, hex, lem_execList_append, h2, execList]
      omega

set_option maxRecDepth 40000

/-- Claim C2 (counterexample): the claim "when primary SQL generation fails, the
simplified generation path (or its hardcoded default) is attempted before any
friendly failure message is returned" is false.  With the primary LLM call
raising on the question "usa medals", the invocation returns the catch-all
friendly message having entered the simplified path zero times and executed
zero statements. -/
theorem C2_counterexample_no_simplified_attempt :
    obtener_consulta_sql envGenFalla = none
    ∧ (procesar_consulta_chat envGenFalla "usa medals").1.respuesta
        = mensaje_error_generico "usa medals"
    ∧ nGenSimple (procesar_consulta_chat envGenFalla "usa medals").2 = 0
    ∧ execList (procesar_consulta_chat envGenFalla "usa medals").2 = [] := by
  exact ⟨by decide, by decide, by decide, by decide⟩

/-- Claim C2 (amended): when primary SQL generation raises (client not initialized
or LLM failure) on a question that passed the guard, the simplified path is
never attempted: the catch-all handler immediately returns the
keyword-sensitive friendly message, with no store execution.  (The simplified
path and its hardcoded default are reached only from a syntax-classified
execution error or the empty-result retry.) -/
theorem C2_primary_generation_failure_skips_simplified_path
    (env : Env) (pregunta : String)
    (hdet : (detectar_consulta_sensible pregunta).1 = false)
    (hval : (validar_respuesta_estructura_db pregunta).1 = false)
    (hgen : obtener_consulta_sql env = none) :
    (procesar_consulta_chat env pregunta).1 = outcomeErrorGenerico pregunta
    ∧ (procesar_consulta_chat env pregunta).2 = [Ev.dbRead, Ev.dbRead, Ev.genSql]
    ∧ nGenSimple (procesar_consulta_chat env pregunta).2 = 0
    ∧ execList (procesar_consulta_chat env pregunta).2 = [] := by
  rcases hd : detectar_consulta_sensible pregunta with ⟨b1, m1⟩
  rw [hd] at hdet; simp at hdet; subst hdet
  rcases hv : validar_respuesta_estructura_db pregunta with ⟨b2, m2⟩
  rw [hv] at hval; simp at hval; subst hval
  simp [procesar_consulta_chat, hd, hv, hgen, nGenSimple, execList]

/-- Claim C2 (witness): the amended theorem applied to the concrete environment
whose primary LLM call raises. -/
theorem C2_witness :
    (procesar_consulta_chat envGenFalla "usa medals").1
      = outcomeErrorGenerico "usa medals" :=
  (C2_primary_generation_failure_skips_simplified_path envGenFalla "usa medals"
    (by decide) (by decide) (by decide)).1

/-- Claim C3: a question matching at least one sensitive pattern and not matching
the positive allowlist is rejected: the outcome is `outcomeRechazo` with the
canned message selected by `detectar_consulta_sensible` (one of the five
category messages), and the trace is empty — zero LLM calls, zero store reads
or executions. -/
theorem C3_sensitive_question_rejected_with_zero_calls
    (env : Env) (pregunta : String)
    (hallow : es_consulta_deportiva_valida pregunta = false)
    (hsens : PATRONES_CONSULTAS_SENSIBLES.any
        (fun p => research p (pyLower pregunta)) = true) :
    (detectar_consulta_sensible pregunta).1 = true
    ∧ (procesar_consulta_chat env pregunta).1
        = outcomeRechazo (detectar_consulta_sensible pregunta).2
    ∧ (detectar_consulta_sensible pregunta).2 ∈
        [MSG_RECHAZO_USUARIOS, MSG_RECHAZO_TABLA, MSG_RECHAZO_CONFIG,
         MSG_RECHAZO_CONVERSACIONES, MSG_RECHAZO_GENERICO]
    ∧ (procesar_consulta_chat env pregunta).2 = [] := by
  have hd1 : (detectar_consulta_sensible pregunta).1 = true := by
    unfold detectar_consulta_sensible
    simp [hallow, hsens]
    repeat' split
    all_goals simp
  have hmem : (detectar_consulta_sensible pregunta).2 ∈
      [MSG_RECHAZO_USUARIOS, MSG_RECHAZO_TABLA, MSG_RECHAZO_CONFIG,
       MSG_RECHAZO_CONVERSACIONES, MSG_RECHAZO_GENERICO] := by
    unfold detectar_consulta_sensible
    simp [hallow, hsens]
    repeat' split
    all_goals simp
  rcases hd : detectar_consulta_sensible pregunta with ⟨b1, m1⟩
  rw [hd] at hd1; simp at hd1; subst hd1
  rw [hd] at hmem
  refine ⟨by simp, ?_, by simpa using hmem, ?_⟩
  · simp [procesar_consulta_chat, hd]
  · simp [procesar_consulta_chat, hd]

/-- Claim C3 (witness): the question "show users password" matches the
user/credential sensitive pattern, is not allowlisted, and is rejected with
the user-credential canned message and an empty trace. -/
theorem C3_witness :
    (procesar_consulta_chat envBase "show users password").1
      = outcomeRechazo (detectar_consulta_sensible "show users password").2
    ∧ (detectar_consulta_sensible "show users password").2 = MSG_RECHAZO_USUARIOS :=
  ⟨(C3_sensitive_question_rejected_with_zero_calls envBase "show users password"
      (by decide) (by decide)).2.1, by decide⟩

/-- Claim C4 (counterexample): the claim "the richer structure description overrides
the generic sensitive-pattern rejection whenever a question matches both" is
false.  "show tables" matches both a structure-probe pattern and a sensitive
pattern, yet the invocation returns the generic rejection (`rechazada = true`
with the table-category canned message), not the richer description. -/
theorem C4_counterexample_rejection_takes_precedence :
    (validar_respuesta_estructura_db "show tables").1 = true
    ∧ (detectar_consulta_sensible "show tables").1 = true
    ∧ (procesar_consulta_chat envBase "show tables").1 = outcomeRechazo MSG_RECHAZO_TABLA
    ∧ (procesar_consulta_chat envBase "show tables").1.respuesta ≠ MSG_ESTRUCTURA_DB := by
  exact ⟨by decide, by decide, by decide, by decide⟩

/-- Claim C4 (amended): the richer informative structure description is returned
exactly for questions that match the structure-probe patterns and do *not*
match any sensitive pattern (after the allowlist); the sensitive-pattern
rejection runs first and takes precedence whenever a question matches both. -/
theorem C4_structure_info_only_when_not_sensitive
    (env : Env) (pregunta : String)
    (hdet : (detectar_consulta_sensible pregunta).1 = false)
    (hval : (validar_respuesta_estructura_db pregunta).1 = true) :
    (procesar_consulta_chat env pregunta).1 = outcomeEstructura MSG_ESTRUCTURA_DB
    ∧ (validar_respuesta_estructura_db pregunta).2 = MSG_ESTRUCTURA_DB
    ∧ (procesar_consulta_chat env pregunta).2 = [] := by
  have hv : validar_respuesta_estructura_db pregunta = (true, MSG_ESTRUCTURA_DB) := by
    by_cases h : patrones_estructura.any (fun p => research p (pyLower pregunta)) = true
    · simp [validar_respuesta_estructura_db, h]
    · simp [validar_respuesta_estructura_db, h] at hval
  rcases hd : detectar_consulta_sensible pregunta with ⟨b1, m1⟩
  rw [hd] at hdet; simp at hdet; subst hdet
  refine ⟨?_, by rw [hv], ?_⟩
  · simp [procesar_consulta_chat, hd, hv]
  · simp [procesar_consulta_chat, hd, hv]

/-- Claim C4 (witness): "cuales tablas existen" matches a structure-probe pattern
and no sensitive pattern, so the amended theorem yields the richer canned
description with an empty trace. -/
theorem C4_witness :
    (procesar_consulta_chat envBase "cuales tablas existen").1
      = outcomeEstructura MSG_ESTRUCTURA_DB :=
  (C4_structure_info_only_when_not_sensitive envBase "cuales tablas existen"
    (by decide) (by decide)).1

theorem lem_contestar_rechazada (env : Env) (p s : String) (r : List Row) :
    (contestar env p s r).1.rechazada = none := by
  unfold contestar
  split <;> simp [outcomeErrorGenerico]

theorem lem_no_rechazo_si_no_sensible (env : Env) (pregunta : String)
    (hdet : (detectar_consulta_sensible pregunta).1 = false) :
    (procesar_consulta_chat env pregunta).1.rechazada ≠ some true := by
  rcases hd : detectar_consulta_sensible pregunta with ⟨b1, m1⟩
  rw [hd] at hdet; simp at hdet; subst hdet
  rcases hv : validar_respuesta_estructura_db pregunta with ⟨b2, m2⟩
  cases b2
  case mk.false =>
    rcases hgen : obtener_consulta_sql env with _ | sqlq
    · simp [procesar_consulta_chat, hd, hv, hgen, outcomeErrorGenerico]
    · rcases hex : (ejecutar_sql env.dbExec env.rollbackOk sqlq).result with exc | rows
      · rcases exc with msg | msg
        · rcases hsim : obtener_consulta_sql_simplificada env with _ | fsql
          · simp [procesar_consulta_chat, hd, hv, hgen, hex, hsim, outcomeAgotado]
          · rcases hfex : (ejecutar_sql env.dbExec env.rollbackOk fsql).result with exc2 | rows2
            · simp [procesar_consulta_chat, hd, hv, hgen, hex, hsim, hfex, outcomeAgotado]
            · have hc := lem_contestar_rechazada env pregunta
                (reintento_vacio env pregunta fsql rows2).1.1 (reintento_vacio env pregunta fsql rows2).1.2
              simp [procesar_consulta_chat, hd, hv, hgen, hex, hsim, hfex, hc]
        · simp [procesar_consulta_chat, hd, hv, hgen, hex, outcomeErrorAcceso]
      · have hc := lem_contestar_rechazada env pregunta
          (reintento_vacio env pregunta sqlq rows).1.1 (reintento_vacio env pregunta sqlq rows).1.2
        simp [procesar_consulta_chat, hd, hv, hgen, hex, hc]
  case mk.true =>
    simp [procesar_consulta_chat, hd, hv, outcomeEstructura]

/-- Claim C5 (counterexample): the claim "every allowlist-matching question proceeds
to SQL generation instead of being rejected" is false.  "which tables have
women sports data" matches the allowlist, yet the structure-probe check
intercepts it: the canned structure description is returned and the trace is
empty, so SQL generation is never entered. -/
theorem C5_counterexample_allowlisted_intercepted :
    es_consulta_deportiva_valida "which tables have women sports data" = true
    ∧ (procesar_consulta_chat envBase "which tables have women sports data").1.respuesta
        = MSG_ESTRUCTURA_DB
    ∧ (procesar_consulta_chat envBase "which tables have women sports data").2 = [] := by
  exact ⟨by decide, by decide, by decide⟩

/-- Claim C5 (amended): an allowlist-matching question is allowed by the guard (the
sensitive-pattern scan is skipped, so it is never rejected even if it also
matches sensitive patterns), and it proceeds to SQL generation unless the
structure-probe check intercepts it first. -/
theorem C5_allowlist_allows_but_structure_can_intercept
    (env : Env) (pregunta : String)
    (hallow : es_consulta_deportiva_valida pregunta = true) :
    detectar_consulta_sensible pregunta = (false, "")
    ∧ (procesar_consulta_chat env pregunta).1.rechazada ≠ some true
    ∧ ((validar_respuesta_estructura_db pregunta).1 = false →
        Ev.genSql ∈ (procesar_consulta_chat env pregunta).2) := by
  have hd : detectar_consulta_sensible pregunta = (false, "") := by
    unfold detectar_consulta_sensible
    simp [hallow]
  refine ⟨hd, lem_no_rechazo_si_no_sensible env pregunta (by rw [hd]), ?_⟩
  intro hval
  rcases hv : validar_respuesta_estructura_db pregunta with ⟨b2, m2⟩
  rw [hv] at hval; simp at hval; subst hval
  rcases hgen : obtener_consulta_sql env with _ | sqlq
  · simp [procesar_consulta_chat, hd, hv, hgen]
  · rcases hex : (ejecutar_sql env.dbExec env.rollbackOk sqlq).result with exc | rows
    · rcases exc with msg | msg
      · rcases hsim : obtener_consulta_sql_simplificada env with _ | fsql
        · simp [procesar_consulta_chat, hd, hv, hgen, hex, hsim]
        · rcases hfex : (ejecutar_sql env.dbExec env.rollbackOk fsql).result with exc2 | rows2
          · simp [procesar_consulta_chat, hd, hv, hgen, hex, hsim, hfex]
          · simp [procesar_consulta_chat, hd, hv, hgen, hex, hsim, hfex]
      · simp [procesar_consulta_chat, hd, hv, hgen, hex]
    · simp [procesar_consulta_chat, hd, hv, hgen, hex]

/-- Claim C5 (witness): "deportes de mujeres" matches the allowlist and not the
structure patterns, so the guard allows it and SQL generation is entered. -/
theorem C5_witness :
    Ev.genSql ∈ (procesar_consulta_chat envBase "deportes de mujeres").2 :=
  (C5_allowlist_allows_but_structure_can_intercept envBase "deportes de mujeres"
    (by decide)).2.2 (by decide)

theorem lem_contestar_traza (env : Env) (p s : String) (r : List Row) :
    (contestar env p s r).2 = [Ev.genAnswer] := by
  unfold contestar
  split <;> rfl

/-- Claim C6: when the primary execution succeeds with zero rows and
`deberia_tener_resultados` judges the question as one that normally yields
data, exactly one simplified retry is generated and executed (the trace holds
exactly the two statements and one simplified-generation entry); the outcome
adopts the retry's SQL and rows when the retry returned at least one row, and
otherwise keeps the original SQL and the original empty row list. -/
theorem C6_empty_result_retry_adoption
    (env : Env) (pregunta sql0 fsql ans : String) (rows2 : List Row)
    (hdet : (detectar_consulta_sensible pregunta).1 = false)
    (hval : (validar_respuesta_estructura_db pregunta).1 = false)
    (hgen : obtener_consulta_sql env = some sql0)
    (hexec : (ejecutar_sql env.dbExec env.rollbackOk sql0).result = Except.ok [])
    (hsh : deberia_tener_resultados pregunta = true)
    (hsimp : obtener_consulta_sql_simplificada env = some fsql)
    (hfexec : (ejecutar_sql env.dbExec env.rollbackOk fsql).result = Except.ok rows2)
    (hans : generar_respuesta_final env = some ans) :
    execList (procesar_consulta_chat env pregunta).2 = [sql0, fsql]
    ∧ nGenSimple (procesar_consulta_chat env pregunta).2 = 1
    ∧ (rows2.length > 0 →
        (procesar_consulta_chat env pregunta).1.consulta_sql = some fsql
        ∧ (procesar_consulta_chat env pregunta).1.datos_contexto
            = some { total_resultados := rows2.length, muestra_datos := rows2.take 5,
                     sql_ejecutado := fsql,
                     terminos_excluidos_aplicados := env.terminos.length })
    ∧ (rows2.length = 0 →
        (procesar_consulta_chat env pregunta).1.consulta_sql = some sql0
        ∧ (procesar_consulta_chat env pregunta).1.datos_contexto
            = some { total_resultados := 0, muestra_datos := [],
                     sql_ejecutado := sql0,
                     terminos_excluidos_aplicados := env.terminos.length }) := by
  rcases hd : detectar_consulta_sensible pregunta with ⟨b1, m1⟩
  rw [hd] at hdet; simp at hdet; subst hdet
  rcases hv : validar_respuesta_estructura_db pregunta with ⟨b2, m2⟩
  rw [hv] at hval; simp at hval; subst hval
  rcases rows2 with _ | ⟨r0, rest⟩
  · refine ⟨?_, ?_, by intro h; simp at h, fun _ => ⟨?_, ?_⟩⟩ <;>
      simp [procesar_consulta_chat, hd, hv, hgen, hexec, reintento_vacio, hsh, hsimp,
            hfexec, contestar, hans, execList, nGenSimple]
  · refine ⟨?_, ?_, fun _ => ⟨?_, ?_⟩, by intro h; simp at h⟩ <;>
      simp [procesar_consulta_chat, hd, hv, hgen, hexec, reintento_vacio, hsh, hsimp,
            hfexec, contestar, hans, execList, nGenSimple]

/-- Claim C6 (witness): concrete run where the primary statement returns zero rows,
the retry returns one row, and the outcome adopts the retry's SQL and rows. -/
theorem C6_witness :
    (procesar_consulta_chat envReintentoExitoso "usa medals").1.consulta_sql = some "SQLB"
    ∧ (procesar_consulta_chat envReintentoExitoso "usa medals").1.datos_contexto
        = some { total_resultados := 1, muestra_datos := [filaEjemplo],
                 sql_ejecutado := "SQLB", terminos_excluidos_aplicados := 0 } :=
  (C6_empty_result_retry_adoption envReintentoExitoso "usa medals" "SQLA" "SQLB" "ANS"
    [filaEjemplo] (by decide) (by decide) (by rfl) (by rfl) (by decide)
    (by rfl) (by rfl) (by rfl)).2.2.1 (by decide)

/-- Claim C7: a question matching one of the repeated-host-city exception patterns
is classified `false` by `deberia_tener_resultados` — the exception list is
consulted before the positive patterns, so this holds regardless of any
positive-pattern match — and consequently an invocation whose primary
statement succeeds with zero rows performs no empty-result retry: exactly one
store execution and zero simplified-generation entries. -/
theorem C7_exception_list_precedence_no_retry
    (env : Env) (pregunta sql0 : String)
    (hexc : excepciones_sin_resultados.any
        (fun p => research p (pyLower pregunta)) = true)
    (hdet : (detectar_consulta_sensible pregunta).1 = false)
    (hval : (validar_respuesta_estructura_db pregunta).1 = false)
    (hgen : obtener_consulta_sql env = some sql0)
    (hexec : (ejecutar_sql env.dbExec env.rollbackOk sql0).result = Except.ok []) :
    deberia_tener_resultados pregunta = false
    ∧ execList (procesar_consulta_chat env pregunta).2 = [sql0]
    ∧ nGenSimple (procesar_consulta_chat env pregunta).2 = 0 := by
  have hsh : deberia_tener_resultados pregunta = false := by
    unfold deberia_tener_resultados
    simp [hexc]
  rcases hd : detectar_consulta_sensible pregunta with ⟨b1, m1⟩
  rw [hd] at hdet; simp at hdet; subst hdet
  rcases hv : validar_respuesta_estructura_db pregunta with ⟨b2, m2⟩
  rw [hv] at hval; simp at hval; subst hval
  refine ⟨hsh, ?_, ?_⟩ <;>
    simp [procesar_consulta_chat, hd, hv, hgen, hexec, reintento_vacio, hsh,
          lem_contestar_traza, execList, nGenSimple]

/-- Claim C7 (witness): "cities hosting multiple olympics" matches an exception
pattern (and also a positive pattern), is classified `false`, and triggers no
retry on an empty result. -/
theorem C7_witness :
    deberia_tener_resultados "cities hosting multiple olympics" = false
    ∧ patrones_con_resultados.any
        (fun p => research p (pyLower "cities hosting multiple olympics")) = true
    ∧ execList (procesar_consulta_chat envBase "cities hosting multiple olympics").2
        = ["SQLA"] :=
  ⟨(C7_exception_list_precedence_no_retry envBase "cities hosting multiple olympics" "SQLA"
      (by decide) (by decide) (by decide) (by rfl) (by rfl)).1,
   by decide,
   (C7_exception_list_precedence_no_retry envBase "cities hosting multiple olympics" "SQLA"
      (by decide) (by decide) (by decide) (by rfl) (by rfl)).2.1⟩

/-- Claim C8: on a failing execution the executor issues a rollback whose own
success or failure never changes the classified result; the error message is
classified by case-insensitive substring matching — aggregate/DISTINCT-ORDER
BY mismatches, generic syntax errors, unknown columns and unknown relations
each yield the syntax-classified exception, every other message yields
`sqlExecutionError` — and an execution-classified error on the primary
statement ends the invocation with the fixed "problem accessing data" message
and no retry (exactly one store execution). -/
theorem C8_error_classification_rollback_no_retry
    (env : Env) (pregunta sql0 m m1 m2 m3 m4 : String) (r2 : Bool)
    (hagg : (containsSub "invalidcolumnreference" (pyLower m1)
             || containsSub "order by expressions must appear" (pyLower m1)) = true)
    (hsyn : containsSub "syntax error" (pyLower m2) = true)
    (hcol : (containsSub "column" (pyLower m3)
             && containsSub "does not exist" (pyLower m3)) = true)
    (hrel : (containsSub "relation" (pyLower m4)
             && containsSub "does not exist" (pyLower m4)) = true)
    (hnot1 : (containsSub "invalidcolumnreference" (pyLower m)
              || containsSub "order by expressions must appear" (pyLower m)) = false)
    (hnot2 : containsSub "syntax error" (pyLower m) = false)
    (hnot3 : (containsSub "column" (pyLower m)
              && containsSub "does not exist" (pyLower m)) = false)
    (hnot4 : (containsSub "relation" (pyLower m)
              && containsSub "does not exist" (pyLower m)) = false)
    (hdet : (detectar_consulta_sensible pregunta).1 = false)
    (hval : (validar_respuesta_estructura_db pregunta).1 = false)
    (hgen : obtener_consulta_sql env = some sql0)
    (hdb : env.dbExec sql0 = DbOut.err m) :
    esErrorSintaxis (clasificar_error_sql m1) = true
    ∧ esErrorSintaxis (clasificar_error_sql m2) = true
    ∧ esErrorSintaxis (clasificar_error_sql m3) = true
    ∧ esErrorSintaxis (clasificar_error_sql m4) = true
    ∧ clasificar_error_sql m
        = SqlExc.sqlExecutionError ("Database query execution failed: " ++ m)
    ∧ (ejecutar_sql env.dbExec env.rollbackOk sql0).rollbackIssued = true
    ∧ (ejecutar_sql env.dbExec r2 sql0).result
        = (ejecutar_sql env.dbExec env.rollbackOk sql0).result
    ∧ (procesar_consulta_chat env pregunta).1 = outcomeErrorAcceso
    ∧ execList (procesar_consulta_chat env pregunta).2 = [sql0] := by
  have hclas : clasificar_error_sql m
      = SqlExc.sqlExecutionError ("Database query execution failed: " ++ m) := by
    unfold clasificar_error_sql
    simp [hnot1, hnot2, hnot3, hnot4]
  have hex : (ejecutar_sql env.dbExec env.rollbackOk sql0).result
      = Except.error (SqlExc.sqlExecutionError ("Database query execution failed: " ++ m)) := by
    simp [ejecutar_sql, hdb, hclas]
  rcases hd : detectar_consulta_sensible pregunta with ⟨b1, mm1⟩
  rw [hd] at hdet; simp at hdet; subst hdet
  rcases hv : validar_respuesta_estructura_db pregunta with ⟨b2, mm2⟩
  rw [hv] at hval; simp at hval; subst hval
  refine ⟨?_, ?_, ?_, ?_, hclas, ?_, ?_, ?_, ?_⟩
  · unfold clasificar_error_sql; simp [hagg, esErrorSintaxis]
  · unfold clasificar_error_sql
    rcases h1 : (containsSub "invalidcolumnreference" (pyLower m2)
        || containsSub "order by expressions must appear" (pyLower m2)) <;>
      simp [h1, hsyn, esErrorSintaxis]
  · unfold clasificar_error_sql
    rcases h1 : (containsSub "invalidcolumnreference" (pyLower m3)
        || containsSub "order by expressions must appear" (pyLower m3)) <;>
    rcases h2 : containsSub "syntax error" (pyLower m3) <;>
      simp [h1, h2, hcol, esErrorSintaxis]
  · unfold clasificar_error_sql
    rcases h1 : (containsSub "invalidcolumnreference" (pyLower m4)
        || containsSub "order by expressions must appear" (pyLower m4)) <;>
    rcases h2 : containsSub "syntax error" (pyLower m4) <;>
    rcases h3 : (containsSub "column" (pyLower m4)
        && containsSub "does not exist" (pyLower m4)) <;>
      simp [h1, h2, h3, hrel, esErrorSintaxis]
  · simp [ejecutar_sql, hdb]
  · simp [ejecutar_sql, hdb]
  · simp [procesar_consulta_chat, hd, hv, hgen, hex]
  · simp [procesar_consulta_chat, hd, hv, hgen, hex, execList]

/-- Claim C8 (witness): the classification exercised on one concrete message per
category, and a concrete invocation whose primary statement fails with a
non-syntax error ("disk failure"): the fixed access-problem message is
returned after exactly one execution. -/
theorem C8_witness :
    esErrorSintaxis (clasificar_error_sql "InvalidColumnReference in query") = true
    ∧ (procesar_consulta_chat envErrorAcceso "usa medals").1 = outcomeErrorAcceso
    ∧ execList (procesar_consulta_chat envErrorAcceso "usa medals").2 = ["SQLA"] := by
  have h := C8_error_classification_rollback_no_retry envErrorAcceso "usa medals" "SQLA"
    "disk failure" "InvalidColumnReference in query" "ERROR: syntax error at or near"
    "column foo does not exist" "relation bar does not exist" false
    (by decide) (by decide) (by decide) (by decide) (by decide) (by decide) (by decide)
    (by decide) (by decide) (by decide) (by rfl) (by rfl)
  exact ⟨h.1, h.2.2.2.2.2.2.2.1, h.2.2.2.2.2.2.2.2⟩

/-- Claim C9: when the primary execution succeeds with zero rows, the heuristic
fires, and the retry's execution fails, the failure is silently swallowed:
the outcome is exactly the successful outcome built from the original SQL and
the original empty row list (no error flag, no fallback flag), and the trace
shows the swallowed retry followed by answer generation. -/
theorem C9_retry_exception_swallowed
    (env : Env) (pregunta sql0 fsql ans : String) (err : SqlExc)
    (hdet : (detectar_consulta_sensible pregunta).1 = false)
    (hval : (validar_respuesta_estructura_db pregunta).1 = false)
    (hgen : obtener_consulta_sql env = some sql0)
    (hexec : (ejecutar_sql env.dbExec env.rollbackOk sql0).result = Except.ok [])
    (hsh : deberia_tener_resultados pregunta = true)
    (hsimp : obtener_consulta_sql_simplificada env = some fsql)
    (hfail : (ejecutar_sql env.dbExec env.rollbackOk fsql).result = Except.error err)
    (hans : generar_respuesta_final env = some ans) :
    (procesar_consulta_chat env pregunta).1
      = { respuesta := ans, consulta_sql := some sql0,
          datos_contexto := some { total_resultados := 0, muestra_datos := [],
                                   sql_ejecutado := sql0,
                                   terminos_excluidos_aplicados := env.terminos.length },
          error := false, rechazada := none, fallback_used := none }
    ∧ (procesar_consulta_chat env pregunta).2
      = [Ev.dbRead, Ev.dbRead, Ev.genSql, Ev.execSql sql0, Ev.genSimple,
         Ev.execSql fsql, Ev.genAnswer] := by
  rcases hd : detectar_consulta_sensible pregunta with ⟨b1, m1⟩
  rw [hd] at hdet; simp at hdet; subst hdet
  rcases hv : validar_respuesta_estructura_db pregunta with ⟨b2, m2⟩
  rw [hv] at hval; simp at hval; subst hval
  constructor <;>
    simp [procesar_consulta_chat, hd, hv, hgen, hexec, reintento_vacio, hsh, hsimp,
          hfail, contestar, hans]

/-- Claim C9 (witness): concrete run where the retry statement fails with "boom";
the outcome keeps the original SQL and empty rows as if no retry happened. -/
theorem C9_witness :
    (procesar_consulta_chat envReintentoFalla "usa medals").1
      = { respuesta := "ANS", consulta_sql := some "SQLA",
          datos_contexto := some { total_resultados := 0, muestra_datos := [],
                                   sql_ejecutado := "SQLA",
                                   terminos_excluidos_aplicados := 0 },
          error := false, rechazada := none, fallback_used := none } :=
  (C9_retry_exception_swallowed envReintentoFalla "usa medals" "SQLA" "SQLB" "ANS"
    (SqlExc.sqlExecutionError ("Database query execution failed: " ++ "boom"))
    (by decide) (by decide) (by rfl) (by rfl) (by decide) (by rfl) (by rfl) (by rfl)).1

theorem lem_contestar_inv (env : Env) (p s : String) (r : List Row) :
    ((contestar env p s r).1.error = false)
    ∧ ((contestar env p s r).1.rechazada = none)
    ∧ ((contestar env p s r).1.consulta_sql = none ↔ (contestar env p s r).1.datos_contexto = none)
    ∧ ((contestar env p s r).1.fallback_used = some true →
        (contestar env p s r).1.consulta_sql = none
        ∧ (contestar env p s r).1.datos_contexto = none) := by
  unfold contestar
  split <;> simp [outcomeErrorGenerico]

/-- Claim C10: on every return path of the orchestrator the outcome's `error` field
is `false`; the `consulta_sql` and `datos_contexto` fields are `none` exactly
together (both populated only on the success path); and whenever failure is
signaled through the `rechazada` or `fallback_used` flags, both fields are
`none` — no SQL text leaks on a non-success path. -/
theorem C10_error_flag_false_and_no_sql_leak (env : Env) (pregunta : String) :
    ((procesar_consulta_chat env pregunta).1.error = false)
    ∧ ((procesar_consulta_chat env pregunta).1.consulta_sql = none
        ↔ (procesar_consulta_chat env pregunta).1.datos_contexto = none)
    ∧ ((procesar_consulta_chat env pregunta).1.rechazada = some true
        ∨ (procesar_consulta_chat env pregunta).1.fallback_used = some true →
        (procesar_consulta_chat env pregunta).1.consulta_sql = none
        ∧ (procesar_consulta_chat env pregunta).1.datos_contexto = none) := by
  rcases hd : detectar_consulta_sensible pregunta with ⟨b1, m1⟩
  cases b1
  case mk.true =>
    simp [procesar_consulta_chat, hd, outcomeRechazo]
  case mk.false =>
  rcases hv : validar_respuesta_estructura_db pregunta with ⟨b2, m2⟩
  cases b2
  case mk.true =>
    simp [procesar_consulta_chat, hd, hv, outcomeEstructura]
  case mk.false =>
  rcases hgen : obtener_consulta_sql env with _ | sqlq
  · simp [procesar_consulta_chat, hd, hv, hgen, outcomeErrorGenerico]
  · rcases hex : (ejecutar_sql env.dbExec env.rollbackOk sqlq).result with exc | rows
    · rcases exc with msg | msg
      · rcases hsim : obtener_consulta_sql_simplificada env with _ | fsql
        · simp [procesar_consulta_chat, hd, hv, hgen, hex, hsim, outcomeAgotado]
        · rcases hfex : (ejecutar_sql env.dbExec env.rollbackOk fsql).result with exc2 | rows2
          · simp [procesar_consulta_chat, hd, hv, hgen, hex, hsim, hfex, outcomeAgotado]
          · have hc := lem_contestar_inv env pregunta
              (reintento_vacio env pregunta fsql rows2).1.1 (reintento_vacio env pregunta fsql rows2).1.2
            simp only [procesar_consulta_chat, hd, hv, hgen, hex, hsim, hfex]
            refine ⟨hc.1, hc.2.2.1, ?_⟩
            rintro (h | h)
            · rw [hc.2.1] at h; cases h
            · exact hc.2.2.2 h
      · simp [procesar_consulta_chat, hd, hv, hgen, hex, outcomeErrorAcceso]
    · have hc := lem_contestar_inv env pregunta
        (reintento_vacio env pregunta sqlq rows).1.1 (reintento_vacio env pregunta sqlq rows).1.2
      simp only [procesar_consulta_chat, hd, hv, hgen, hex]
      refine ⟨hc.1, hc.2.2.1, ?_⟩
      rintro (h | h)
      · rw [hc.2.1] at h; cases h
      · exact hc.2.2.2 h

/-- Claim C10 (witness): the invariant instantiated on a concrete successful
invocation. -/
theorem C10_witness :
    ((procesar_consulta_chat envBase "usa medals").1.error = false)
    ∧ ((procesar_consulta_chat envBase "usa medals").1.consulta_sql = none
        ↔ (procesar_consulta_chat envBase "usa medals").1.datos_contexto = none) :=
  ⟨(C10_error_flag_false_and_no_sql_leak envBase "usa medals").1,
   (C10_error_flag_false_and_no_sql_leak envBase "usa medals").2.1⟩
